import Mathlib

/-!
Verification development for the `robot_self_filter::SelfMask` point
classification engine (self_mask.cpp).  The C++ source is shallowly
embedded: coordinates become rationals, the per-point loops become list
traversals, and the external geometry library (geometric_shapes) is
represented by its capability interface.  Comparisons that the source
performs on Euclidean lengths are embedded as the equivalent comparisons
on squared lengths, so that every definition is executable over `ℚ`.
-/

namespace RobotSelfFilter

/-- 3D vector with rational coordinates; models `tf::Vector3` /
`Eigen::Vector3d` with exact arithmetic. -/
structure Vec3 where
  x : ℚ
  y : ℚ
  z : ℚ
deriving DecidableEq, Repr

/-- Componentwise difference, models `a - b` on vectors. -/
def Vec3.sub (a b : Vec3) : Vec3 :=
  ⟨a.x - b.x, a.y - b.y, a.z - b.z⟩

/-- Dot product, models `a.dot(b)`. -/
def Vec3.dot (a b : Vec3) : ℚ :=
  a.x * b.x + a.y * b.y + a.z * b.z

/-- Squared Euclidean norm, models `v.squaredNorm()` / `length2()`. -/
def Vec3.normSq (a : Vec3) : ℚ :=
  Vec3.dot a a

/-- The zero vector, models `setValue(0, 0, 0)`. -/
def Vec3.zero : Vec3 := ⟨0, 0, 0⟩

/-- `lengthLt v d` embeds the source comparison `v.length() < d`.
Since `v.length() = sqrt (normSq v) ≥ 0`, the comparison holds exactly
when `d` is positive and `normSq v < d * d`; this renders the
square-root-based test exactly in rational arithmetic. -/
def lengthLt (v : Vec3) (d : ℚ) : Bool :=
  decide (0 < d) && decide (Vec3.normSq v < d * d)

/-- Rigid transform, tracked symbolically.  The claims under scrutiny only
inspect which transforms get composed onto which bodies (identity on
lookup failure, the looked-up transform on success, always composed with
the per-link collision-origin offset), never the numeric action of a
transform on a point, so a free representation with an explicit identity
and composition is a faithful model of `tf::Transform` here. -/
inductive Transf where
  | ident : Transf
  | prim : String → Transf
  | comp : Transf → Transf → Transf
deriving DecidableEq, Repr

/-- Bounding sphere, models `bodies::BoundingSphere`. -/
structure Sphere where
  center : Vec3
  radius : ℚ
deriving DecidableEq, Repr

/-- Modelled from the spec: the capability set of a geometric body
(`bodies::Body` of geometric_shapes, which is not under src/):
`containsPoint`, `intersectsRay` (the body's first hit point along the
ray, the source always requests at most one intersection), and
`computeBoundingSphere`, each a function of the body's current pose,
plus `computeVolume`.  The ray direction handed to `rayHit` is the
unnormalized `sensorPos - pt` that the source passes (`dir_eigen` is
never divided by `lng` before the `intersectsRay` call); a ray is
invariant under positive scaling of its direction. -/
structure BodyGeom where
  contains : Transf → Vec3 → Bool
  rayHit : Transf → Vec3 → Vec3 → Option Vec3
  bsphere : Transf → Sphere
  volume : ℚ

/-- A geometric body: capabilities plus current pose (set via `setPose`). -/
structure Body where
  geom : BodyGeom
  pose : Transf

/-- One monitored link, models `robot_self_filter::SeeLink`: the scaled
body, its unscaled twin, the constant URDF collision-origin offset and
the volume computed once at configuration time. -/
structure SeeLink where
  name : String
  body : Body
  unscaledBody : Body
  constTransf : Transf
  volume : ℚ

/-- The mutable state of a `SelfMask` object: the body sequence, the
cached per-body bounding spheres and squared radii, the sensor position
and the minimum sensor distance. -/
structure SelfMaskState where
  bodies : List SeeLink
  bspheres : List Sphere
  bspheresRadius2 : List ℚ
  sensorPos : Vec3
  minSensorDist : ℚ

/-- Per-point classification result; models the `INSIDE` / `OUTSIDE` /
`SHADOW` enumeration of self_mask.h. -/
inductive MaskLabel where
  | INSIDE : MaskLabel
  | OUTSIDE : MaskLabel
  | SHADOW : MaskLabel
deriving DecidableEq, Repr

/-- `computeBoundingSpheres`: recompute every body's bounding sphere at
its current pose and cache the squared radii (source lines 261-269). -/
def computeBoundingSpheres (s : SelfMaskState) : SelfMaskState :=
  let bsph := s.bodies.map (fun sl => sl.body.geom.bsphere sl.body.pose)
  { s with bspheres := bsph,
           bspheresRadius2 := bsph.map (fun b => b.radius * b.radius) }

/-- `assumeFrame(frame_id, stamp)` (source lines 305-337).  `lookup`
models the tf `lookupTransform` outcome per link name: `none` is a
timeout or lookup exception, in which case the source substitutes the
identity transform (`transf.setIdentity()`).  The resulting transform is
composed with the link's constant collision offset and set as the pose
of both the scaled and the unscaled body; afterwards all bounding
spheres are recomputed. -/
def assumeFrame (lookup : String → Option Transf) (s : SelfMaskState) :
    SelfMaskState :=
  let bodies := s.bodies.map (fun sl =>
    let transf := (lookup sl.name).getD Transf.ident
    let pose := Transf.comp transf sl.constTransf
    { sl with body := { sl.body with pose := pose },
              unscaledBody := { sl.unscaledBody with pose := pose } })
  computeBoundingSpheres { s with bodies := bodies }

/-- `assumeFrame(frame_id, stamp, sensor_pos, min_sensor_dist)`
(source lines 271-276): update link poses, then store the explicit
sensor position and the minimum sensor distance. -/
def assumeFramePos (lookup : String → Option Transf) (sensorPos : Vec3)
    (minSensorDist : ℚ) (s : SelfMaskState) : SelfMaskState :=
  let s2 := assumeFrame lookup s
  { s2 with sensorPos := sensorPos, minSensorDist := minSensorDist }

/-- `assumeFrame(frame_id, stamp, sensor_frame, min_sensor_dist)`
(source lines 278-303): update link poses, then resolve the sensor
origin in the cloud frame.  `sensorLookup` models the result of the tf
lookup of the sensor frame: on success the transform's origin, on
timeout or exception the source falls back to `(0,0,0)`.  (The source's
earlier timeout branch also zeroes the position but falls through to the
lookup attempt, so the lookup outcome is what survives.) -/
def assumeFrameSensor (lookup : String → Option Transf)
    (sensorLookup : Option Vec3) (minSensorDist : ℚ) (s : SelfMaskState) :
    SelfMaskState :=
  let s2 := assumeFrame lookup s
  { s2 with sensorPos := sensorLookup.getD Vec3.zero,
            minSensorDist := minSensorDist }

/-- Per-point body of the `maskAuxContainment` loop (source lines
351-362): cheap merged-bounding-sphere rejection, then the first scaled
body containing the point decides `INSIDE`. -/
def classifyContainmentPoint (bound : Sphere) (radiusSquared : ℚ)
    (bodies : List SeeLink) (pt : Vec3) : MaskLabel :=
  if Vec3.normSq (Vec3.sub pt bound.center) < radiusSquared then
    if bodies.any (fun sl => sl.body.geom.contains sl.body.pose pt) then
      MaskLabel.INSIDE
    else
      MaskLabel.OUTSIDE
  else
    MaskLabel.OUTSIDE

/-- `maskAuxContainment` (source lines 339-363): merge the cached
bounding spheres once per batch (`merge` models the external
`bodies::mergeBoundingSpheres`), then classify each point. -/
def maskAuxContainment (merge : List Sphere → Sphere) (s : SelfMaskState)
    (pts : List Vec3) : List MaskLabel :=
  let bound := merge s.bspheres
  let radiusSquared := bound.radius * bound.radius
  pts.map (classifyContainmentPoint bound radiusSquared s.bodies)

/-- The shadow-test loop over the bodies (source lines 417-431 and
492-504).  Modelled from the spec for the `intersectsRay` callee (not
under src/): each call yields the current body's first hit point along
the ray, and that hit is the one submitted to the direction test.  A
body with a hit `h` failing `dir · (sensorPos - h) ≥ 0` does not stop
the loop; the first body whose hit passes the test fires the callback
(when one is provided) and yields `SHADOW`.  The dot test uses the
unnormalized `sensorPos - pt`; the source divides by the positive length
first, which does not change the sign. -/
def shadowScan (sensorPos pt : Vec3) (hasCb : Bool) :
    List SeeLink → MaskLabel × List Vec3
  | [] => (MaskLabel.OUTSIDE, [])
  | sl :: rest =>
    match sl.body.geom.rayHit sl.body.pose pt (Vec3.sub sensorPos pt) with
    | some h =>
      if 0 ≤ Vec3.dot (Vec3.sub sensorPos pt) (Vec3.sub sensorPos h) then
        (MaskLabel.SHADOW, if hasCb then [h] else [])
      else
        shadowScan sensorPos pt hasCb rest
    | none => shadowScan sensorPos pt hasCb rest

/-- The first hit point produced by a body whose ray hit passes the
direction test — the hit at which the shadow loop stops. -/
def firstQualifyingHit (sensorPos pt : Vec3) :
    List SeeLink → Option Vec3
  | [] => none
  | sl :: rest =>
    match sl.body.geom.rayHit sl.body.pose pt (Vec3.sub sensorPos pt) with
    | some h =>
      if 0 ≤ Vec3.dot (Vec3.sub sensorPos pt) (Vec3.sub sensorPos h) then
        some h
      else
        firstQualifyingHit sensorPos pt rest
    | none => firstQualifyingHit sensorPos pt rest

/-- Per-point body of the `maskAuxIntersection` loop (source lines
379-445), with its strict precedence: (1) merged-sphere-guarded unscaled
containment, (2) minimum sensor distance, (3) shadow ray test, (4)
merged-sphere-guarded scaled containment, (5) `OUTSIDE`.  The second
component collects the points passed to the shadow callback. -/
def classifyIntersectionPoint (bound : Sphere) (radiusSquared : ℚ)
    (sensorPos : Vec3) (minSensorDist : ℚ) (hasCb : Bool)
    (bodies : List SeeLink) (pt : Vec3) : MaskLabel × List Vec3 :=
  let step1 :=
    if Vec3.normSq (Vec3.sub bound.center pt) < radiusSquared then
      if bodies.any
          (fun sl => sl.unscaledBody.geom.contains sl.unscaledBody.pose pt) then
        MaskLabel.INSIDE
      else
        MaskLabel.OUTSIDE
    else
      MaskLabel.OUTSIDE
  if step1 = MaskLabel.INSIDE then
    (MaskLabel.INSIDE, [])
  else if lengthLt (Vec3.sub sensorPos pt) minSensorDist then
    (MaskLabel.INSIDE, [])
  else
    let sres := shadowScan sensorPos pt hasCb bodies
    if sres.1 = MaskLabel.SHADOW then
      sres
    else if Vec3.normSq (Vec3.sub bound.center pt) < radiusSquared then
      if bodies.any (fun sl => sl.body.geom.contains sl.body.pose pt) then
        (MaskLabel.INSIDE, [])
      else
        (MaskLabel.OUTSIDE, [])
    else
      (MaskLabel.OUTSIDE, [])

/-- `maskAuxIntersection` (source lines 365-446). -/
def maskAuxIntersection (merge : List Sphere → Sphere) (s : SelfMaskState)
    (hasCb : Bool) (pts : List Vec3) : List (MaskLabel × List Vec3) :=
  let bound := merge s.bspheres
  let radiusSquared := bound.radius * bound.radius
  pts.map (classifyIntersectionPoint bound radiusSquared s.sensorPos
    s.minSensorDist hasCb s.bodies)

/-- `getMaskContainment(pt)` (source lines 448-458): single-point
containment query against the current pose snapshot; no merged-sphere
rejection, no frame update. -/
def getMaskContainment (s : SelfMaskState) (pt : Vec3) : MaskLabel :=
  if s.bodies.any (fun sl => sl.body.geom.contains sl.body.pose pt) then
    MaskLabel.INSIDE
  else
    MaskLabel.OUTSIDE

/-- `getMaskIntersection(pt, callback)` (source lines 465-513):
single-point intersection query with the same precedence as the batch
loop but without the merged-sphere guards. -/
def getMaskIntersection (s : SelfMaskState) (hasCb : Bool) (pt : Vec3) :
    MaskLabel × List Vec3 :=
  if s.bodies.any
      (fun sl => sl.unscaledBody.geom.contains sl.unscaledBody.pose pt) then
    (MaskLabel.INSIDE, [])
  else if lengthLt (Vec3.sub s.sensorPos pt) s.minSensorDist then
    (MaskLabel.INSIDE, [])
  else
    let sres := shadowScan s.sensorPos pt hasCb s.bodies
    if sres.1 = MaskLabel.SHADOW then
      sres
    else if s.bodies.any (fun sl => sl.body.geom.contains sl.body.pose pt) then
      (MaskLabel.INSIDE, [])
    else
      (MaskLabel.OUTSIDE, [])

/-- `maskContainment` (source lines 219-229): with an empty body set the
mask is filled with `OUTSIDE`; otherwise `assumeFrame` then the batch
containment classification. -/
def maskContainment (merge : List Sphere → Sphere)
    (lookup : String → Option Transf) (s : SelfMaskState)
    (pts : List Vec3) : List MaskLabel :=
  if s.bodies.isEmpty then
    List.replicate pts.length MaskLabel.OUTSIDE
  else
    maskAuxContainment merge (assumeFrame lookup s) pts

/-- `maskIntersection` with a sensor frame (source lines 231-246): with
an empty body set the mask is filled with `OUTSIDE`; otherwise
`assumeFrame` with the sensor frame, then, when the sensor frame id is
empty, the containment-only classification (which invokes no callback),
else the full intersection classification. -/
def maskIntersectionFrame (merge : List Sphere → Sphere)
    (lookup : String → Option Transf) (sensorLookup : Option Vec3)
    (sensorFrame : String) (minSensorDist : ℚ) (hasCb : Bool)
    (s : SelfMaskState) (pts : List Vec3) : List (MaskLabel × List Vec3) :=
  if s.bodies.isEmpty then
    List.replicate pts.length (MaskLabel.OUTSIDE, [])
  else
    let s2 := assumeFrameSensor lookup sensorLookup minSensorDist s
    if sensorFrame = "" then
      (maskAuxContainment merge s2 pts).map (fun l => (l, []))
    else
      maskAuxIntersection merge s2 hasCb pts

/-- `maskIntersection` with an explicit sensor position (source lines
248-259). -/
def maskIntersectionPos (merge : List Sphere → Sphere)
    (lookup : String → Option Transf) (sensorPos : Vec3)
    (minSensorDist : ℚ) (hasCb : Bool) (s : SelfMaskState)
    (pts : List Vec3) : List (MaskLabel × List Vec3) :=
  if s.bodies.isEmpty then
    List.replicate pts.length (MaskLabel.OUTSIDE, [])
  else
    maskAuxIntersection merge (assumeFramePos lookup sensorPos minSensorDist s)
      hasCb pts

/-- URDF collision geometry descriptor (`urdf::Geometry`); `other`
models the `default:` branch of `constructShape` for an unrecognized
geometry type. -/
inductive Geom where
  | sphere (radius : ℚ)
  | box (x y z : ℚ)
  | cylinder (radius length : ℚ)
  | mesh (filename : String) (scale : Vec3)
  | other
deriving Repr

/-- Constructed collision shape (`shapes::Shape`); mesh shapes carry an
opaque id standing for the loaded mesh data. -/
inductive Shape where
  | sphere (radius : ℚ)
  | box (x y z : ℚ)
  | cylinder (radius length : ℚ)
  | mesh (id : Nat)
deriving DecidableEq, Repr

/-- URDF collision element: optional geometry plus the collision-origin
offset (the source converts `link->collision->origin` with
`urdfPose2TFTransform`; the converted transform is what we carry). -/
structure UrdfCollision where
  geometry : Option Geom
  origin : Transf

/-- URDF link as seen by `configure`: an optional collision element. -/
structure UrdfLink where
  collision : Option UrdfCollision

/-- Modelled from the spec: the parsed robot model resolver
(`urdf::Model`, not under src/), mapping a link name to an optional
link. -/
structure RobotModel where
  getLink : String → Option UrdfLink

/-- One entry of the configuration list (`robot_self_filter::LinkInfo`). -/
structure LinkInfo where
  name : String
  scale : ℚ
  padding : ℚ

/-- Modelled from the spec: the external construction collaborators of
`configure` that are not under src/ — `shapes::createMeshFromResource`
(may fail for an unresolvable resource), `bodies::createBodyFromShape`
(may fail for an unsupported shape), and the effect of
`setScale`/`setPadding` on a body's capabilities. -/
structure ConfigEnv where
  createMesh : String → Vec3 → Option Shape
  createBody : Shape → Option BodyGeom
  applyScalePadding : BodyGeom → ℚ → ℚ → BodyGeom

/-- `constructShape` (source lines 72-114): spheres, boxes and cylinders
always construct; a mesh constructs only from a non-empty filename via
the mesh loader; an unrecognized geometry type yields nothing. -/
def constructShape (createMesh : String → Vec3 → Option Shape) :
    Geom → Option Shape
  | Geom.sphere r => some (Shape.sphere r)
  | Geom.box x y z => some (Shape.box x y z)
  | Geom.cylinder r l => some (Shape.cylinder r l)
  | Geom.mesh f sc => if f = "" then none else createMesh f sc
  | Geom.other => none

/-- Outcome of one iteration of the `configure` link loop. -/
inductive LinkResult where
  | missing : LinkResult
  | skipped : LinkResult
  | ok : SeeLink → LinkResult

/-- One iteration of the `configure` link loop (source lines 146-191):
unknown link names are recorded as missing; absent collision geometry,
an unconstructible shape or an unconstructible body skip the link;
otherwise a `SeeLink` is built, with scale and padding applied to the
scaled body, the volume computed from the scaled body, and a second,
untouched body as the unscaled twin (the source calls
`createBodyFromShape` on the same shape again). -/
def processLink (env : ConfigEnv) (m : RobotModel) (li : LinkInfo) :
    LinkResult :=
  match m.getLink li.name with
  | none => LinkResult.missing
  | some link =>
    match link.collision with
    | none => LinkResult.skipped
    | some coll =>
      match coll.geometry with
      | none => LinkResult.skipped
      | some geom =>
        match constructShape env.createMesh geom with
        | none => LinkResult.skipped
        | some shape =>
          match env.createBody shape with
          | none => LinkResult.skipped
          | some b0 =>
            let bs := env.applyScalePadding b0 li.scale li.padding
            LinkResult.ok
              { name := li.name,
                body := { geom := bs, pose := Transf.ident },
                unscaledBody := { geom := b0, pose := Transf.ident },
                constTransf := coll.origin,
                volume := bs.volume }

/-- The `configure` link loop: accumulates the successfully built bodies
in input order and the aggregated missing-name diagnostic string (the
source appends `" " ++ name` to one stringstream and emits a single
warning at the end). -/
def configureLoop (env : ConfigEnv) (m : RobotModel) :
    List LinkInfo → List SeeLink × String
  | [] => ([], "")
  | li :: rest =>
    let r := configureLoop env m rest
    match processLink env m li with
    | LinkResult.missing => (r.1, " " ++ li.name ++ r.2)
    | LinkResult.skipped => r
    | LinkResult.ok sl => (sl :: r.1, r.2)

/-- The aggregated missing-name diagnostic on its own: the names of the
entries the model cannot resolve, in input order, each prefixed by a
space. -/
def missingDiag (m : RobotModel) : List LinkInfo → String
  | [] => ""
  | li :: rest =>
    if (m.getLink li.name).isNone then
      " " ++ li.name ++ missingDiag m rest
    else
      missingDiag m rest

/-- Volume-descending comparison used by the sort at the end of
`configure`.  Modelled from the spec: the `SortBodies` comparator
(declared in self_mask.h, not under src/) orders by larger volume
first. -/
def sortBodiesCmp (a b : SeeLink) : Prop :=
  b.volume < a.volume

/-- A body list in non-increasing volume order (sortedness with respect
to the negation of `sortBodiesCmp` of the swapped pair, which is what
`std::sort` guarantees for its comparator). -/
def VolumeDescending (l : List SeeLink) : Prop :=
  l.Pairwise (fun a b => b.volume ≤ a.volume)

/-- What `std::sort(bodies_.begin(), bodies_.end(), SortBodies())`
guarantees about one input/output pair: the output is a permutation of
the input, sorted for the comparator.  `std::sort` promises nothing
more — in particular not stability. -/
def IsStdSortResult (input output : List SeeLink) : Prop :=
  output.Perm input ∧ VolumeDescending output

/-- A function is a conforming implementation of the `std::sort` call
when every input is mapped to a sorted permutation of itself. -/
def SortContract (f : List SeeLink → List SeeLink) : Prop :=
  ∀ l, IsStdSortResult l (f l)

/-- `configure` (source lines 117-211), parameterized by a conforming
`std::sort` implementation.  `model = none` models the two hard-failure
paths (no `robot_description` parameter, or an unparsable one), the only
paths returning `false`; they are collapsed into one absent-model case.
On success the new state carries the sorted bodies, bounding-sphere
caches resized to the body count (recomputed before any use), the sensor
position reset to the origin, and the aggregated missing-name
diagnostic.  (`min_sensor_dist_` is left untouched by the source until
the next `assumeFrame`; the model starts it at 0, and no claim depends
on it before it is set.) -/
def configure (env : ConfigEnv) (sortImpl : List SeeLink → List SeeLink)
    (model : Option RobotModel) (links : List LinkInfo) :
    Option (SelfMaskState × String) :=
  match model with
  | none => none
  | some m =>
    let r := configureLoop env m links
    let bodies := sortImpl r.1
    some
      ({ bodies := bodies,
         bspheres := List.replicate bodies.length ⟨Vec3.zero, 0⟩,
         bspheresRadius2 := List.replicate bodies.length 0,
         sensorPos := Vec3.zero,
         minSensorDist := 0 }, r.2)

/-- Stable insertion into a volume-descending list: an element moves
past all entries of greater-or-equal volume, so a later-inserted element
settles after earlier equals. -/
def insertVol (a : SeeLink) : List SeeLink → List SeeLink
  | [] => [a]
  | b :: rest =>
    if a.volume ≤ b.volume then b :: insertVol a rest
    else a :: b :: rest

/-- Insertion sort by non-increasing volume; one concrete conforming
`std::sort` implementation, used to witness existence statements. -/
def sortVol (l : List SeeLink) : List SeeLink :=
  l.foldl (fun acc a => insertVol a acc) []

/-- The same insertion routine driven from the right: also a conforming
`std::sort` implementation, but one that reverses the relative order of
equal-volume elements. -/
def sortVolRev (l : List SeeLink) : List SeeLink :=
  l.foldr insertVol []

/-- The state of a `SelfMask` right after `configure` on an empty link
list: no bodies, no cached spheres, sensor at the origin. -/
def emptyMaskState : SelfMaskState :=
  { bodies := [], bspheres := [], bspheresRadius2 := [],
    sensorPos := Vec3.zero, minSensorDist := 0 }

/-- Concrete body capabilities of a unit ball centered at the frame
origin (pose-independent, as for an identity pose): used to instantiate
theorems on concrete states. -/
def geomBall : BodyGeom :=
  { contains := fun _ p => decide (Vec3.normSq p < 1),
    rayHit := fun _ _ _ => none,
    bsphere := fun _ => ⟨Vec3.zero, 1⟩,
    volume := 1 }

/-- Unit ball at the origin that additionally reports the scenario-B ray
hit: the ray from `(-2,0,0)` toward a sensor at `(10,0,0)` first meets
the ball at `(-1,0,0)`. -/
def geomBallRay : BodyGeom :=
  { contains := fun _ p => decide (Vec3.normSq p < 1),
    rayHit := fun _ p d =>
      if p = Vec3.mk (-2) 0 0 ∧ d = Vec3.mk 12 0 0 then
        some (Vec3.mk (-1) 0 0)
      else
        none,
    bsphere := fun _ => ⟨Vec3.zero, 1⟩,
    volume := 1 }

/-- Single monitored link backed by the unit ball. -/
def ballLink : SeeLink :=
  { name := "ball", body := ⟨geomBall, Transf.ident⟩,
    unscaledBody := ⟨geomBall, Transf.ident⟩,
    constTransf := Transf.ident, volume := 1 }

/-- Single monitored link backed by the ray-reporting unit ball. -/
def rayLink : SeeLink :=
  { name := "ball", body := ⟨geomBallRay, Transf.ident⟩,
    unscaledBody := ⟨geomBallRay, Transf.ident⟩,
    constTransf := Transf.ident, volume := 1 }

/-- Snapshot with the unit-ball link, a sensor at `(10,0,0)` and a
minimum sensor distance of `1/10` (spec scenarios A-C). -/
def stateBall : SelfMaskState :=
  { bodies := [ballLink], bspheres := [⟨Vec3.zero, 1⟩],
    bspheresRadius2 := [1], sensorPos := ⟨10, 0, 0⟩,
    minSensorDist := 1 / 10 }

/-- Same snapshot over the ray-reporting ball. -/
def stateRay : SelfMaskState :=
  { bodies := [rayLink], bspheres := [⟨Vec3.zero, 1⟩],
    bspheresRadius2 := [1], sensorPos := ⟨10, 0, 0⟩,
    minSensorDist := 1 / 10 }

/-- Merged-bounding-sphere model generous enough to strictly enclose the
unit ball: center at the origin, radius 2. -/
def mergeBall : List Sphere → Sphere := fun _ => ⟨Vec3.zero, 2⟩

/-- Transform provider on which every lookup fails. -/
def lookupFail : String → Option Transf := fun _ => none

/-- Configuration environment in which every shape constructs the unit
ball and scale/padding leave it untouched. -/
def envSphere : ConfigEnv :=
  { createMesh := fun _ _ => none,
    createBody := fun _ => some geomBall,
    applyScalePadding := fun g _ _ => g }

/-- Robot model resolving exactly the links `"a"` and `"b"`, each with a
unit-sphere collision element at the identity offset. -/
def modelAB : RobotModel :=
  { getLink := fun n =>
      if n = "a" ∨ n = "b" then
        some ⟨some ⟨some (Geom.sphere 1), Transf.ident⟩⟩
      else
        none }

/-- Two same-volume links in the input order `a`, `b`. -/
def linksAB : List LinkInfo :=
  [⟨"a", 1, 0⟩, ⟨"b", 1, 0⟩]

/-- A link list with one name (`"q"`) unknown to `modelAB`. -/
def linksMix : List LinkInfo :=
  [⟨"a", 1, 0⟩, ⟨"q", 1, 0⟩, ⟨"b", 1, 0⟩]

lemma normSq_sub_comm (a b : Vec3) :
    Vec3.normSq (Vec3.sub a b) = Vec3.normSq (Vec3.sub b a) := by
  simp only [Vec3.normSq, Vec3.dot, Vec3.sub]
  ring

lemma sub_zero_vec (p : Vec3) : Vec3.sub p Vec3.zero = p := by
  simp [Vec3.sub, Vec3.zero]

/-- The shadow loop yields `SHADOW` together with the callback record
exactly at the first qualifying hit, and `OUTSIDE` with no callback when
no body produces a qualifying hit. -/
lemma shadowScan_eq (sp pt : Vec3) (cb : Bool) (l : List SeeLink) :
    shadowScan sp pt cb l =
      match firstQualifyingHit sp pt l with
      | some h => (MaskLabel.SHADOW, if cb then [h] else [])
      | none => (MaskLabel.OUTSIDE, []) := by
  induction l with
  | nil => rfl
  | cons sl rest ih =>
    simp only [shadowScan, firstQualifyingHit]
    cases hray : sl.body.geom.rayHit sl.body.pose pt (Vec3.sub sp pt) with
    | none => exact ih
    | some h =>
      by_cases hd : 0 ≤ Vec3.dot (Vec3.sub sp pt) (Vec3.sub sp h)
      · simp [hd]
      · simp [hd, ih]

lemma classifyContainmentPoint_inside_or_outside (bound : Sphere)
    (r2 : ℚ) (bodies : List SeeLink) (pt : Vec3) :
    classifyContainmentPoint bound r2 bodies pt = MaskLabel.INSIDE ∨
    classifyContainmentPoint bound r2 bodies pt = MaskLabel.OUTSIDE := by
  by_cases h1 : Vec3.normSq (Vec3.sub pt bound.center) < r2
  · by_cases h2 : bodies.any (fun sl => sl.body.geom.contains sl.body.pose pt)
    · simp [classifyContainmentPoint, h1, h2]
    · simp [classifyContainmentPoint, h1, h2]
  · simp [classifyContainmentPoint, h1]

lemma insertVol_perm (a : SeeLink) (l : List SeeLink) :
    (insertVol a l).Perm (a :: l) := by
  induction l with
  | nil => exact List.Perm.refl _
  | cons b rest ih =>
    simp only [insertVol]
    by_cases h : a.volume ≤ b.volume
    · simp only [if_pos h]
      exact (ih.cons b).trans (List.Perm.swap a b rest)
    · simp only [if_neg h]
      exact List.Perm.refl _

lemma insertVol_sorted (a : SeeLink) (l : List SeeLink)
    (h : VolumeDescending l) : VolumeDescending (insertVol a l) := by
  induction l with
  | nil =>
    simp [insertVol, VolumeDescending]
  | cons b rest ih =>
    unfold VolumeDescending at h ⊢
    rcases List.pairwise_cons.mp h with ⟨hb, hrest⟩
    simp only [insertVol]
    by_cases hab : a.volume ≤ b.volume
    · simp only [if_pos hab]
      refine List.pairwise_cons.mpr ⟨?_, ih hrest⟩
      intro c hc
      have hmem : c ∈ a :: rest := (insertVol_perm a rest).mem_iff.mp hc
      rcases List.mem_cons.mp hmem with rfl | hcr
      · exact hab
      · exact hb c hcr
    · simp only [if_neg hab]
      refine List.pairwise_cons.mpr ⟨?_, h⟩
      intro c hc
      rcases List.mem_cons.mp hc with rfl | hcr
      · exact le_of_not_le hab
      · exact le_trans (hb c hcr) (le_of_not_le hab)

lemma sortVolRev_perm (l : List SeeLink) : (sortVolRev l).Perm l := by
  induction l with
  | nil => exact List.Perm.refl _
  | cons a rest ih =>
    simp only [sortVolRev, List.foldr_cons]
    exact (insertVol_perm a _).trans (ih.cons a)

lemma sortVolRev_sorted (l : List SeeLink) :
    VolumeDescending (sortVolRev l) := by
  induction l with
  | nil => simp [sortVolRev, VolumeDescending]
  | cons a rest ih =>
    simp only [sortVolRev, List.foldr_cons]
    exact insertVol_sorted a _ ih

lemma sortVolRev_contract : SortContract sortVolRev :=
  fun l => ⟨sortVolRev_perm l, sortVolRev_sorted l⟩

lemma processLink_missing_iff (env : ConfigEnv) (m : RobotModel)
    (li : LinkInfo) :
    processLink env m li = LinkResult.missing ↔
      (m.getLink li.name).isNone := by
  unfold processLink
  split
  · rename_i heq
    simp [heq]
  · rename_i link heq
    simp only [heq, Option.isNone_some]
    split
    · simp
    · split
      · simp
      · split
        · simp
        · split
          · simp
          · simp

lemma configureLoop_snd (env : ConfigEnv) (m : RobotModel)
    (links : List LinkInfo) :
    (configureLoop env m links).2 = missingDiag m links := by
  induction links with
  | nil => rfl
  | cons li rest ih =>
    simp only [configureLoop, missingDiag]
    cases hp : processLink env m li with
    | missing =>
      have hN : (m.getLink li.name).isNone = true := by
        simpa using (processLink_missing_iff env m li).mp hp
      simp [hN, ih]
    | skipped =>
      have hN : (m.getLink li.name).isNone = false := by
        by_contra hc
        have h2 : (m.getLink li.name).isNone = true := by
          revert hc
          cases (m.getLink li.name).isNone <;> simp
        have := (processLink_missing_iff env m li).mpr (by simp [h2])
        rw [hp] at this
        cases this
      simp [hN, ih]
    | ok sl =>
      have hN : (m.getLink li.name).isNone = false := by
        by_contra hc
        have h2 : (m.getLink li.name).isNone = true := by
          revert hc
          cases (m.getLink li.name).isNone <;> simp
        have := (processLink_missing_iff env m li).mpr (by simp [h2])
        rw [hp] at this
        cases this
      simp [hN, ih]

lemma configureLoop_fst_length_le (env : ConfigEnv) (m : RobotModel)
    (links : List LinkInfo) :
    (configureLoop env m links).1.length ≤ links.length := by
  induction links with
  | nil => simp [configureLoop]
  | cons li rest ih =>
    simp only [configureLoop, List.length_cons]
    cases processLink env m li with
    | missing => exact le_trans ih (Nat.le_succ _)
    | skipped => exact le_trans ih (Nat.le_succ _)
    | ok sl => simpa using Nat.succ_le_succ ih

/-- When every body-contained point is strictly inside the merged
sphere, the batch containment classification of a point coincides with
the single-point query. -/
lemma classifyContainmentPoint_eq_single (bound : Sphere) (r2 : ℚ)
    (s : SelfMaskState) (pt : Vec3)
    (hS : ∀ sl ∈ s.bodies, sl.body.geom.contains sl.body.pose pt = true →
      Vec3.normSq (Vec3.sub pt bound.center) < r2) :
    classifyContainmentPoint bound r2 s.bodies pt = getMaskContainment s pt := by
  by_cases hin : Vec3.normSq (Vec3.sub pt bound.center) < r2
  · simp [classifyContainmentPoint, getMaskContainment, hin]
  · have hany : s.bodies.any
        (fun sl => sl.body.geom.contains sl.body.pose pt) = false := by
      by_contra hc
      have h2 : s.bodies.any
          (fun sl => sl.body.geom.contains sl.body.pose pt) = true := by
        revert hc
        cases s.bodies.any (fun sl => sl.body.geom.contains sl.body.pose pt) <;>
          simp
      obtain ⟨sl, hsl, hcont⟩ := List.any_eq_true.mp h2
      exact hin (hS sl hsl hcont)
    simp [classifyContainmentPoint, getMaskContainment, hin, hany]

/-- When every scaled-contained and every unscaled-contained point is
strictly inside the merged sphere, the batch intersection
classification of a point coincides with the single-point query. -/
lemma classifyIntersectionPoint_eq_single (bound : Sphere) (r2 : ℚ)
    (s : SelfMaskState) (hasCb : Bool) (pt : Vec3)
    (hS : ∀ sl ∈ s.bodies, sl.body.geom.contains sl.body.pose pt = true →
      Vec3.normSq (Vec3.sub pt bound.center) < r2)
    (hU : ∀ sl ∈ s.bodies,
      sl.unscaledBody.geom.contains sl.unscaledBody.pose pt = true →
      Vec3.normSq (Vec3.sub pt bound.center) < r2) :
    classifyIntersectionPoint bound r2 s.sensorPos s.minSensorDist hasCb
      s.bodies pt = getMaskIntersection s hasCb pt := by
  by_cases hu : s.bodies.any
      (fun sl => sl.unscaledBody.geom.contains sl.unscaledBody.pose pt) = true
  · obtain ⟨sl, hsl, hcont⟩ := List.any_eq_true.mp hu
    have hin : Vec3.normSq (Vec3.sub bound.center pt) < r2 := by
      rw [normSq_sub_comm]
      exact hU sl hsl hcont
    simp [classifyIntersectionPoint, getMaskIntersection, hin, hu]
  · have hu2 : s.bodies.any
        (fun sl => sl.unscaledBody.geom.contains sl.unscaledBody.pose pt) =
          false := by
      revert hu
      cases s.bodies.any
        (fun sl => sl.unscaledBody.geom.contains sl.unscaledBody.pose pt) <;>
        simp
    by_cases hlen : lengthLt (Vec3.sub s.sensorPos pt) s.minSensorDist = true
    · simp [classifyIntersectionPoint, getMaskIntersection, hu2, hlen]
    · have hlen2 : lengthLt (Vec3.sub s.sensorPos pt) s.minSensorDist =
          false := by
        revert hlen
        cases lengthLt (Vec3.sub s.sensorPos pt) s.minSensorDist <;> simp
      by_cases hsh : (shadowScan s.sensorPos pt hasCb s.bodies).1 =
          MaskLabel.SHADOW
      · simp [classifyIntersectionPoint, getMaskIntersection, hu2, hlen2, hsh]
      · by_cases hs2 : s.bodies.any
            (fun sl => sl.body.geom.contains sl.body.pose pt) = true
        · obtain ⟨sl, hsl, hcont⟩ := List.any_eq_true.mp hs2
          have hin : Vec3.normSq (Vec3.sub bound.center pt) < r2 := by
            rw [normSq_sub_comm]
            exact hS sl hsl hcont
          simp [classifyIntersectionPoint, getMaskIntersection, hu2, hlen2,
            hsh, hin, hs2]
        · have hs3 : s.bodies.any
              (fun sl => sl.body.geom.contains sl.body.pose pt) = false := by
            revert hs2
            cases s.bodies.any (fun sl => sl.body.geom.contains sl.body.pose pt) <;>
              simp
          simp [classifyIntersectionPoint, getMaskIntersection, hu2, hlen2,
            hsh, hs3]

/-- C1: in both the batch (`maskAuxIntersection`) and the single-point
(`getMaskIntersection`) intersection classification, a point contained
in at least one unscaled body is labeled `INSIDE` — never `SHADOW` —
because the unscaled-containment tier is evaluated first and
short-circuits the standoff, ray and scaled-containment tiers.  For the
batch variant the point must additionally pass the merged-bounding-
sphere pre-check (`hIn`), which the spec's enclosure invariant
(unscaledBody ⊆ scaledBody ⊆ its bounding sphere ⊆ merged sphere)
guarantees for unscaled-contained points; the single-point variant has
no such pre-check. -/
theorem claim_c1_unscaled_inside (merge : List Sphere → Sphere)
    (s : SelfMaskState) (pts : List Vec3) (i : ℕ) (pt : Vec3) (hasCb : Bool)
    (hpt : pts[i]? = some pt)
    (hU : s.bodies.any
      (fun sl => sl.unscaledBody.geom.contains sl.unscaledBody.pose pt) = true)
    (hIn : Vec3.normSq (Vec3.sub (merge s.bspheres).center pt) <
      (merge s.bspheres).radius * (merge s.bspheres).radius) :
    (maskAuxIntersection merge s hasCb pts)[i]? =
      some (MaskLabel.INSIDE, []) ∧
    getMaskIntersection s hasCb pt = (MaskLabel.INSIDE, []) := by
  constructor
  · simp only [maskAuxIntersection, List.getElem?_map, hpt, Option.map_some']
    simp [classifyIntersectionPoint, hIn, hU]
  · simp [getMaskIntersection, hU]

/-- Witness for C1 at a concrete input: the unit-ball snapshot with the
point at the origin (spec scenario A). -/
theorem claim_c1_witness :
    ([Vec3.zero][0]? = some Vec3.zero) ∧
    (stateBall.bodies.any (fun sl =>
      sl.unscaledBody.geom.contains sl.unscaledBody.pose Vec3.zero) = true) ∧
    (Vec3.normSq (Vec3.sub (mergeBall stateBall.bspheres).center Vec3.zero) <
      (mergeBall stateBall.bspheres).radius *
        (mergeBall stateBall.bspheres).radius) ∧
    ((maskAuxIntersection mergeBall stateBall true [Vec3.zero])[0]? =
      some (MaskLabel.INSIDE, []) ∧
    getMaskIntersection stateBall true Vec3.zero = (MaskLabel.INSIDE, [])) :=
  by
  have h1 : [Vec3.zero][0]? = some Vec3.zero := rfl
  have h2 : stateBall.bodies.any (fun sl =>
      sl.unscaledBody.geom.contains sl.unscaledBody.pose Vec3.zero) = true := by
    norm_num [stateBall, ballLink, geomBall, Vec3.normSq, Vec3.dot, Vec3.zero]
  have h3 : Vec3.normSq (Vec3.sub (mergeBall stateBall.bspheres).center
      Vec3.zero) < (mergeBall stateBall.bspheres).radius *
      (mergeBall stateBall.bspheres).radius := by
    norm_num [mergeBall, Vec3.sub, Vec3.normSq, Vec3.dot, Vec3.zero]
  exact ⟨h1, h2, h3,
    claim_c1_unscaled_inside mergeBall stateBall [Vec3.zero] 0 Vec3.zero true
      h1 h2 h3⟩

/-- C2: in both intersection classifications, for a point in no unscaled
body and not within the minimum sensor distance, if scanning the bodies
in order some body's ray test toward the sensor yields a first
qualifying hit `h` (one with `direction · (sensorPos − h) ≥ 0`), the
label is `SHADOW`, the shadow observer — when provided — is invoked
with exactly that hit, and the loop stops there
(`firstQualifyingHit` returns the hit of the first body that qualifies). -/
theorem claim_c2_shadow (merge : List Sphere → Sphere) (s : SelfMaskState)
    (pts : List Vec3) (i : ℕ) (pt h : Vec3) (hasCb : Bool)
    (hpt : pts[i]? = some pt)
    (hU : s.bodies.any
      (fun sl => sl.unscaledBody.geom.contains sl.unscaledBody.pose pt) = false)
    (hsd : lengthLt (Vec3.sub s.sensorPos pt) s.minSensorDist = false)
    (hq : firstQualifyingHit s.sensorPos pt s.bodies = some h) :
    (maskAuxIntersection merge s hasCb pts)[i]? =
      some (MaskLabel.SHADOW, if hasCb then [h] else []) ∧
    getMaskIntersection s hasCb pt =
      (MaskLabel.SHADOW, if hasCb then [h] else []) := by
  have hscan := shadowScan_eq s.sensorPos pt hasCb s.bodies
  rw [hq] at hscan
  constructor
  · simp only [maskAuxIntersection, List.getElem?_map, hpt, Option.map_some']
    simp [classifyIntersectionPoint, hU, hsd, hscan]
  · simp [getMaskIntersection, hU, hsd, hscan]

/-- Witness for C2 at the spec's scenario B: sphere of radius 1 at the
origin, sensor at `(10,0,0)`, min standoff `1/10`, point `(-2,0,0)`;
the ray toward the sensor hits the sphere at `(-1,0,0)`, which the
observer receives. -/
theorem claim_c2_witness :
    ([Vec3.mk (-2) 0 0][0]? = some (Vec3.mk (-2) 0 0)) ∧
    (stateRay.bodies.any (fun sl =>
      sl.unscaledBody.geom.contains sl.unscaledBody.pose
        (Vec3.mk (-2) 0 0)) = false) ∧
    (lengthLt (Vec3.sub stateRay.sensorPos (Vec3.mk (-2) 0 0))
      stateRay.minSensorDist = false) ∧
    (firstQualifyingHit stateRay.sensorPos (Vec3.mk (-2) 0 0)
      stateRay.bodies = some (Vec3.mk (-1) 0 0)) ∧
    ((maskAuxIntersection mergeBall stateRay true
        [Vec3.mk (-2) 0 0])[0]? =
      some (MaskLabel.SHADOW, [Vec3.mk (-1) 0 0]) ∧
    getMaskIntersection stateRay true (Vec3.mk (-2) 0 0) =
      (MaskLabel.SHADOW, [Vec3.mk (-1) 0 0])) :=
  by
  have h1 : [Vec3.mk (-2) 0 0][0]? = some (Vec3.mk (-2) 0 0) := rfl
  have h2 : stateRay.bodies.any (fun sl =>
      sl.unscaledBody.geom.contains sl.unscaledBody.pose
        (Vec3.mk (-2) 0 0)) = false := by
    norm_num [stateRay, rayLink, geomBallRay, Vec3.normSq, Vec3.dot]
  have h3 : lengthLt (Vec3.sub stateRay.sensorPos (Vec3.mk (-2) 0 0))
      stateRay.minSensorDist = false := by
    norm_num [stateRay, lengthLt, Vec3.sub, Vec3.normSq, Vec3.dot]
  have h4 : firstQualifyingHit stateRay.sensorPos (Vec3.mk (-2) 0 0)
      stateRay.bodies = some (Vec3.mk (-1) 0 0) := by
    norm_num [stateRay, rayLink, geomBallRay, firstQualifyingHit,
      Vec3.sub, Vec3.dot]
  exact ⟨h1, h2, h3, h4,
    claim_c2_shadow mergeBall stateRay [Vec3.mk (-2) 0 0] 0
      (Vec3.mk (-2) 0 0) (Vec3.mk (-1) 0 0) true h1 h2 h3 h4⟩

/-- C3: batch containment classification.  A point whose squared
distance to the merged-sphere center strictly exceeds the squared
radius is labeled `OUTSIDE` for every possible body list (no body
test is consulted).  Otherwise — under the spec's enclosure invariant
(`hEnc`: body-contained points lie strictly inside the merged sphere) —
the label is `INSIDE` exactly when some scaled body contains the point,
else `OUTSIDE`. -/
theorem claim_c3_containment (merge : List Sphere → Sphere)
    (s : SelfMaskState) (pts : List Vec3) (i : ℕ) (pt : Vec3)
    (hpt : pts[i]? = some pt)
    (hEnc : ∀ sl ∈ s.bodies, sl.body.geom.contains sl.body.pose pt = true →
      Vec3.normSq (Vec3.sub pt (merge s.bspheres).center) <
        (merge s.bspheres).radius * (merge s.bspheres).radius) :
    (maskAuxContainment merge s pts)[i]? =
      some (if s.bodies.any (fun sl => sl.body.geom.contains sl.body.pose pt)
        then MaskLabel.INSIDE else MaskLabel.OUTSIDE) ∧
    ((merge s.bspheres).radius * (merge s.bspheres).radius <
        Vec3.normSq (Vec3.sub pt (merge s.bspheres).center) →
      ∀ bodies2, classifyContainmentPoint (merge s.bspheres)
        ((merge s.bspheres).radius * (merge s.bspheres).radius) bodies2 pt =
          MaskLabel.OUTSIDE) := by
  constructor
  · simp only [maskAuxContainment, List.getElem?_map, hpt, Option.map_some']
    by_cases hin : Vec3.normSq (Vec3.sub pt (merge s.bspheres).center) <
        (merge s.bspheres).radius * (merge s.bspheres).radius
    · simp [classifyContainmentPoint, hin]
    · have hany : s.bodies.any
          (fun sl => sl.body.geom.contains sl.body.pose pt) = false := by
        by_contra hc
        have h2 : s.bodies.any
            (fun sl => sl.body.geom.contains sl.body.pose pt) = true := by
          revert hc
          cases s.bodies.any
            (fun sl => sl.body.geom.contains sl.body.pose pt) <;> simp
        obtain ⟨sl, hsl, hcont⟩ := List.any_eq_true.mp h2
        exact hin (hEnc sl hsl hcont)
      simp [classifyContainmentPoint, hin, hany]
  · intro hgt bodies2
    have hin : ¬ Vec3.normSq (Vec3.sub pt (merge s.bspheres).center) <
        (merge s.bspheres).radius * (merge s.bspheres).radius :=
      lt_asymm hgt
    simp [classifyContainmentPoint, hin]

/-- Witness for C3 at a concrete input: the unit-ball snapshot with the
point `(5,0,0)` (outside the merged sphere, label `OUTSIDE`). -/
theorem claim_c3_witness :
    ([Vec3.mk 5 0 0][0]? = some (Vec3.mk 5 0 0)) ∧
    (∀ sl ∈ stateBall.bodies,
      sl.body.geom.contains sl.body.pose (Vec3.mk 5 0 0) = true →
      Vec3.normSq (Vec3.sub (Vec3.mk 5 0 0)
          (mergeBall stateBall.bspheres).center) <
        (mergeBall stateBall.bspheres).radius *
          (mergeBall stateBall.bspheres).radius) ∧
    ((maskAuxContainment mergeBall stateBall [Vec3.mk 5 0 0])[0]? =
      some (if stateBall.bodies.any (fun sl =>
          sl.body.geom.contains sl.body.pose (Vec3.mk 5 0 0))
        then MaskLabel.INSIDE else MaskLabel.OUTSIDE) ∧
    ((mergeBall stateBall.bspheres).radius *
        (mergeBall stateBall.bspheres).radius <
        Vec3.normSq (Vec3.sub (Vec3.mk 5 0 0)
          (mergeBall stateBall.bspheres).center) →
      ∀ bodies2, classifyContainmentPoint (mergeBall stateBall.bspheres)
        ((mergeBall stateBall.bspheres).radius *
          (mergeBall stateBall.bspheres).radius) bodies2 (Vec3.mk 5 0 0) =
          MaskLabel.OUTSIDE)) :=
  by
  have h1 : [Vec3.mk 5 0 0][0]? = some (Vec3.mk 5 0 0) := rfl
  have h2 : ∀ sl ∈ stateBall.bodies,
      sl.body.geom.contains sl.body.pose (Vec3.mk 5 0 0) = true →
      Vec3.normSq (Vec3.sub (Vec3.mk 5 0 0)
          (mergeBall stateBall.bspheres).center) <
        (mergeBall stateBall.bspheres).radius *
          (mergeBall stateBall.bspheres).radius := by
    intro sl hsl hc
    simp only [stateBall, List.mem_singleton] at hsl
    subst hsl
    norm_num [ballLink, geomBall, Vec3.normSq, Vec3.dot] at hc
  exact ⟨h1, h2,
    claim_c3_containment mergeBall stateBall [Vec3.mk 5 0 0] 0
      (Vec3.mk 5 0 0) h1 h2⟩

/-- C4: in both intersection classifications, a point in no unscaled
body whose distance to the sensor is (strictly) below the minimum
sensor distance is labeled `INSIDE` by the standoff tier, before any
ray or scaled-containment test and regardless of the body geometry
(`lengthLt` renders the source's `dir.length() < min_sensor_dist_`). -/
theorem claim_c4_standoff (merge : List Sphere → Sphere)
    (s : SelfMaskState) (pts : List Vec3) (i : ℕ) (pt : Vec3) (hasCb : Bool)
    (hpt : pts[i]? = some pt)
    (hU : s.bodies.any
      (fun sl => sl.unscaledBody.geom.contains sl.unscaledBody.pose pt) = false)
    (hsd : lengthLt (Vec3.sub s.sensorPos pt) s.minSensorDist = true) :
    (maskAuxIntersection merge s hasCb pts)[i]? =
      some (MaskLabel.INSIDE, []) ∧
    getMaskIntersection s hasCb pt = (MaskLabel.INSIDE, []) := by
  constructor
  · simp only [maskAuxIntersection, List.getElem?_map, hpt, Option.map_some']
    simp [classifyIntersectionPoint, hU, hsd]
  · simp [getMaskIntersection, hU, hsd]

/-- Witness for C4 at the spec's scenario C: sensor at `(10,0,0)`, min
standoff `1/10`, point `(199/20, 0, 0)` at distance `1/20` from the
sensor and outside the sphere — labeled `INSIDE` by the standoff rule. -/
theorem claim_c4_witness :
    ([Vec3.mk (199 / 20) 0 0][0]? = some (Vec3.mk (199 / 20) 0 0)) ∧
    (stateBall.bodies.any (fun sl =>
      sl.unscaledBody.geom.contains sl.unscaledBody.pose
        (Vec3.mk (199 / 20) 0 0)) = false) ∧
    (lengthLt (Vec3.sub stateBall.sensorPos (Vec3.mk (199 / 20) 0 0))
      stateBall.minSensorDist = true) ∧
    ((maskAuxIntersection mergeBall stateBall true
        [Vec3.mk (199 / 20) 0 0])[0]? = some (MaskLabel.INSIDE, []) ∧
    getMaskIntersection stateBall true (Vec3.mk (199 / 20) 0 0) =
      (MaskLabel.INSIDE, [])) :=
  by
  have h1 : [Vec3.mk (199 / 20) 0 0][0]? = some (Vec3.mk (199 / 20) 0 0) :=
    rfl
  have h2 : stateBall.bodies.any (fun sl =>
      sl.unscaledBody.geom.contains sl.unscaledBody.pose
        (Vec3.mk (199 / 20) 0 0)) = false := by
    norm_num [stateBall, ballLink, geomBall, Vec3.normSq, Vec3.dot]
  have h3 : lengthLt (Vec3.sub stateBall.sensorPos (Vec3.mk (199 / 20) 0 0))
      stateBall.minSensorDist = true := by
    norm_num [stateBall, lengthLt, Vec3.sub, Vec3.normSq, Vec3.dot]
  exact ⟨h1, h2, h3,
    claim_c4_standoff mergeBall stateBall [Vec3.mk (199 / 20) 0 0] 0
      (Vec3.mk (199 / 20) 0 0) true h1 h2 h3⟩

/-- C5 counterexample: the claim asserts a *stable* volume-descending
sort (equal volumes keep their input order), but the source sorts with
`std::sort`, which gives no stability guarantee.  Concretely: on the
input links `a`, `b` — both resolving to bodies of volume 1 —
`sortVolRev` is a conforming implementation of the `std::sort` contract
(permutation, sorted by non-increasing volume), yet a `configure` run
using it emits the bodies in the order `b`, `a`, breaking the claimed
tie preservation. -/
theorem claim_c5_counterexample :
    SortContract sortVolRev ∧
    linksAB.map LinkInfo.name = ["a", "b"] ∧
    (configure envSphere sortVolRev (some modelAB) linksAB).map
      (fun r => (r.1.bodies.map SeeLink.name,
        r.1.bodies.map SeeLink.volume, r.2)) =
      some (["b", "a"], [1, 1], "") := by
  refine ⟨sortVolRev_contract, rfl, ?_⟩
  norm_num [configure, configureLoop, processLink, constructShape,
    envSphere, modelAB, linksAB, sortVolRev, insertVol, geomBall]

/-- C5 as amended: after `configure`, the body sequence is sorted by
non-increasing volume (every conforming `std::sort` run guarantees
this); the relative order of equal-volume bodies is unspecified because
`std::sort` is not stable. -/
theorem claim_c5_amended_sorted (env : ConfigEnv)
    (f : List SeeLink → List SeeLink) (model : Option RobotModel)
    (links : List LinkInfo) (st : SelfMaskState) (diag : String)
    (hf : SortContract f)
    (hc : configure env f model links = some (st, diag)) :
    VolumeDescending st.bodies := by
  cases model with
  | none => exact absurd hc (by simp [configure])
  | some m =>
    simp only [configure, Option.some.injEq, Prod.mk.injEq] at hc
    obtain ⟨h1, h2⟩ := hc
    rw [← h1]
    exact (hf (configureLoop env m links).1).2

/-- Witness for the amended C5 at a concrete input: the two-link
configure run under the conforming sort. -/
theorem claim_c5_witness :
    SortContract sortVolRev ∧
    VolumeDescending
      (sortVolRev (configureLoop envSphere modelAB linksAB).1) :=
  ⟨sortVolRev_contract,
    claim_c5_amended_sorted envSphere sortVolRev (some modelAB) linksAB
      _ _ sortVolRev_contract rfl⟩

/-- C6: `configure` on an empty link list (with a usable robot model)
succeeds with an empty body set and an empty diagnostic, and on the
empty-body state all three batch classifications label every input
point `OUTSIDE`. -/
theorem claim_c6_empty_configure (env : ConfigEnv)
    (f : List SeeLink → List SeeLink) (m : RobotModel)
    (merge : List Sphere → Sphere) (lookup : String → Option Transf)
    (sensorLookup : Option Vec3) (sensorFrame : String) (sensorPos : Vec3)
    (minDist : ℚ) (hasCb : Bool) (pts : List Vec3)
    (hf : SortContract f) :
    configure env f (some m) [] = some (emptyMaskState, "") ∧
    maskContainment merge lookup emptyMaskState pts =
      List.replicate pts.length MaskLabel.OUTSIDE ∧
    maskIntersectionFrame merge lookup sensorLookup sensorFrame minDist hasCb
      emptyMaskState pts =
      List.replicate pts.length (MaskLabel.OUTSIDE, []) ∧
    maskIntersectionPos merge lookup sensorPos minDist hasCb emptyMaskState
      pts = List.replicate pts.length (MaskLabel.OUTSIDE, []) := by
  have h0 : f [] = [] := (hf []).1.eq_nil
  refine ⟨?_, rfl, rfl, rfl⟩
  simp [configure, configureLoop, emptyMaskState, h0]

/-- Witness for C6 at concrete inputs. -/
theorem claim_c6_witness :
    SortContract sortVolRev ∧
    (configure envSphere sortVolRev (some modelAB) [] =
      some (emptyMaskState, "") ∧
    maskContainment mergeBall lookupFail emptyMaskState [Vec3.zero] =
      List.replicate [Vec3.zero].length MaskLabel.OUTSIDE ∧
    maskIntersectionFrame mergeBall lookupFail none "laser" 0 true
      emptyMaskState [Vec3.zero] =
      List.replicate [Vec3.zero].length (MaskLabel.OUTSIDE, []) ∧
    maskIntersectionPos mergeBall lookupFail Vec3.zero 0 true emptyMaskState
      [Vec3.zero] = List.replicate [Vec3.zero].length (MaskLabel.OUTSIDE, [])) :=
  ⟨sortVolRev_contract,
    claim_c6_empty_configure envSphere sortVolRev modelAB mergeBall
      lookupFail none "laser" Vec3.zero 0 true [Vec3.zero]
      sortVolRev_contract⟩

/-- C7: `configure` fails (returns nothing) exactly on the absent-model
paths; with a model present it always succeeds, whatever the per-link
failures, aggregates the unknown names into the single diagnostic
string, and yields at most as many bodies as input links. -/
theorem claim_c7_configure_failures (env : ConfigEnv)
    (f : List SeeLink → List SeeLink) (m : RobotModel)
    (links : List LinkInfo) (hf : SortContract f) :
    configure env f none links = none ∧
    (configure env f (some m) links).isSome = true ∧
    (configure env f (some m) links).map Prod.snd =
      some (missingDiag m links) ∧
    (∀ st diag, configure env f (some m) links = some (st, diag) →
      st.bodies.length ≤ links.length) := by
  refine ⟨rfl, rfl, ?_, ?_⟩
  · simp [configure, configureLoop_snd]
  · intro st diag hc
    simp only [configure, Option.some.injEq, Prod.mk.injEq] at hc
    obtain ⟨h1, h2⟩ := hc
    rw [← h1]
    have hlen := (hf (configureLoop env m links).1).1.length_eq
    exact le_trans (le_of_eq hlen) (configureLoop_fst_length_le env m links)

/-- Witness for C7 at a concrete input: a run over `linksMix`, whose
middle entry `"q"` is unknown and ends up in the aggregated
diagnostic. -/
theorem claim_c7_witness :
    SortContract sortVolRev ∧
    missingDiag modelAB linksMix = " q" ∧
    (configure envSphere sortVolRev none linksMix = none ∧
    (configure envSphere sortVolRev (some modelAB) linksMix).isSome = true ∧
    (configure envSphere sortVolRev (some modelAB) linksMix).map Prod.snd =
      some (missingDiag modelAB linksMix) ∧
    (∀ st diag, configure envSphere sortVolRev (some modelAB) linksMix =
      some (st, diag) → st.bodies.length ≤ linksMix.length)) := by
  refine ⟨sortVolRev_contract, ?_, claim_c7_configure_failures envSphere
    sortVolRev modelAB linksMix sortVolRev_contract⟩
  rfl

/-- C8: after `assumeFrame`, every link's scaled and unscaled body
carries the pose obtained by composing the looked-up transform — or the
identity when the lookup for that single link failed — with the link's
constant collision offset; no link aborts the update (the body count is
preserved), and every body's bounding sphere and squared radius are
recomputed from the freshly set poses. -/
theorem claim_c8_assume_frame (lookup : String → Option Transf)
    (s : SelfMaskState) (i : ℕ) :
    ((assumeFrame lookup s).bodies[i]?).map (fun sl => sl.body.pose) =
      (s.bodies[i]?).map (fun sl =>
        Transf.comp ((lookup sl.name).getD Transf.ident) sl.constTransf) ∧
    ((assumeFrame lookup s).bodies[i]?).map
        (fun sl => sl.unscaledBody.pose) =
      (s.bodies[i]?).map (fun sl =>
        Transf.comp ((lookup sl.name).getD Transf.ident) sl.constTransf) ∧
    (assumeFrame lookup s).bodies.length = s.bodies.length ∧
    (assumeFrame lookup s).bspheres =
      (assumeFrame lookup s).bodies.map
        (fun sl => sl.body.geom.bsphere sl.body.pose) ∧
    (assumeFrame lookup s).bspheresRadius2 =
      (assumeFrame lookup s).bspheres.map
        (fun b => b.radius * b.radius) := by
  refine ⟨?_, ?_, ?_, ?_, ?_⟩
  · cases h : s.bodies[i]? with
    | none => simp [assumeFrame, computeBoundingSpheres, List.getElem?_map, h]
    | some sl => simp [assumeFrame, computeBoundingSpheres,
        List.getElem?_map, h]
  · cases h : s.bodies[i]? with
    | none => simp [assumeFrame, computeBoundingSpheres, List.getElem?_map, h]
    | some sl => simp [assumeFrame, computeBoundingSpheres,
        List.getElem?_map, h]
  · simp [assumeFrame, computeBoundingSpheres]
  · simp [assumeFrame, computeBoundingSpheres]
  · simp [assumeFrame, computeBoundingSpheres]

/-- C9: on a fixed pose snapshot, the single-point queries agree with
the batch procedures pointwise: `maskAuxContainment` maps each point to
`getMaskContainment`, and `maskAuxIntersection` maps each point to
`getMaskIntersection`.  The two batch-only merged-sphere pre-checks are
transparent under the spec's enclosure invariant, supplied as the
hypotheses `hS` (scaled-contained points lie strictly inside the merged
sphere) and `hU` (likewise for unscaled containment). -/
theorem claim_c9_single_batch_agree (merge : List Sphere → Sphere)
    (s : SelfMaskState) (pts : List Vec3) (hasCb : Bool)
    (hS : ∀ pt : Vec3, ∀ sl ∈ s.bodies,
      sl.body.geom.contains sl.body.pose pt = true →
      Vec3.normSq (Vec3.sub pt (merge s.bspheres).center) <
        (merge s.bspheres).radius * (merge s.bspheres).radius)
    (hU : ∀ pt : Vec3, ∀ sl ∈ s.bodies,
      sl.unscaledBody.geom.contains sl.unscaledBody.pose pt = true →
      Vec3.normSq (Vec3.sub pt (merge s.bspheres).center) <
        (merge s.bspheres).radius * (merge s.bspheres).radius) :
    maskAuxContainment merge s pts = pts.map (getMaskContainment s) ∧
    maskAuxIntersection merge s hasCb pts =
      pts.map (getMaskIntersection s hasCb) := by
  constructor
  · simp only [maskAuxContainment]
    exact congrArg (fun fn => List.map fn pts)
      (funext fun pt => classifyContainmentPoint_eq_single _ _ s pt (hS pt))
  · simp only [maskAuxIntersection]
    exact congrArg (fun fn => List.map fn pts)
      (funext fun pt => classifyIntersectionPoint_eq_single _ _ s hasCb pt
        (hS pt) (hU pt))

/-- Witness for C9 at concrete inputs: the unit-ball snapshot over the
points of scenarios A and B. -/
theorem claim_c9_witness :
    (∀ pt : Vec3, ∀ sl ∈ stateBall.bodies,
      sl.body.geom.contains sl.body.pose pt = true →
      Vec3.normSq (Vec3.sub pt (mergeBall stateBall.bspheres).center) <
        (mergeBall stateBall.bspheres).radius *
          (mergeBall stateBall.bspheres).radius) ∧
    (∀ pt : Vec3, ∀ sl ∈ stateBall.bodies,
      sl.unscaledBody.geom.contains sl.unscaledBody.pose pt = true →
      Vec3.normSq (Vec3.sub pt (mergeBall stateBall.bspheres).center) <
        (mergeBall stateBall.bspheres).radius *
          (mergeBall stateBall.bspheres).radius) ∧
    (maskAuxContainment mergeBall stateBall [Vec3.zero, Vec3.mk 5 0 0] =
      [Vec3.zero, Vec3.mk 5 0 0].map (getMaskContainment stateBall) ∧
    maskAuxIntersection mergeBall stateBall true
        [Vec3.zero, Vec3.mk 5 0 0] =
      [Vec3.zero, Vec3.mk 5 0 0].map (getMaskIntersection stateBall true)) := by
  have hS : ∀ pt : Vec3, ∀ sl ∈ stateBall.bodies,
      sl.body.geom.contains sl.body.pose pt = true →
      Vec3.normSq (Vec3.sub pt (mergeBall stateBall.bspheres).center) <
        (mergeBall stateBall.bspheres).radius *
          (mergeBall stateBall.bspheres).radius := by
    intro pt sl hsl hc
    simp only [stateBall, List.mem_singleton] at hsl
    subst hsl
    simp only [ballLink, geomBall, decide_eq_true_eq] at hc
    simp only [mergeBall, sub_zero_vec]
    linarith
  have hU : ∀ pt : Vec3, ∀ sl ∈ stateBall.bodies,
      sl.unscaledBody.geom.contains sl.unscaledBody.pose pt = true →
      Vec3.normSq (Vec3.sub pt (mergeBall stateBall.bspheres).center) <
        (mergeBall stateBall.bspheres).radius *
          (mergeBall stateBall.bspheres).radius := by
    intro pt sl hsl hc
    simp only [stateBall, List.mem_singleton] at hsl
    subst hsl
    simp only [ballLink, geomBall, decide_eq_true_eq] at hc
    simp only [mergeBall, sub_zero_vec]
    linarith
  exact ⟨hS, hU,
    claim_c9_single_batch_agree mergeBall stateBall
      [Vec3.zero, Vec3.mk 5 0 0] true hS hU⟩

/-- C10: the sensor-frame batch intersection entry point, called with an
empty sensor frame id on a non-empty body set, degrades to
containment-only classification: every produced entry is labeled
`INSIDE` or `OUTSIDE` — never `SHADOW` — and carries no shadow-callback
invocation. -/
theorem claim_c10_containment_only (merge : List Sphere → Sphere)
    (lookup : String → Option Transf) (sensorLookup : Option Vec3)
    (minDist : ℚ) (hasCb : Bool) (s : SelfMaskState) (pts : List Vec3)
    (i : ℕ) (r : MaskLabel × List Vec3)
    (hne : s.bodies ≠ [])
    (hr : (maskIntersectionFrame merge lookup sensorLookup "" minDist hasCb
      s pts)[i]? = some r) :
    (r.1 = MaskLabel.INSIDE ∨ r.1 = MaskLabel.OUTSIDE) ∧ r.2 = [] := by
  have hemp : s.bodies.isEmpty = false := by
    cases hb : s.bodies with
    | nil => exact absurd hb hne
    | cons a l => rfl
  rw [maskIntersectionFrame] at hr
  simp only [hemp, Bool.false_eq_true, if_false, eq_self_iff_true, if_true,
    List.getElem?_map] at hr
  cases hq : (maskAuxContainment merge
      (assumeFrameSensor lookup sensorLookup minDist s) pts)[i]? with
  | none =>
    rw [hq] at hr
    cases hr
  | some lab =>
    rw [hq] at hr
    simp only [Option.map_some', Option.some.injEq] at hr
    have hlab : lab = MaskLabel.INSIDE ∨ lab = MaskLabel.OUTSIDE := by
      rw [maskAuxContainment, List.getElem?_map] at hq
      cases hpt : pts[i]? with
      | none =>
        rw [hpt] at hq
        cases hq
      | some pt =>
        rw [hpt] at hq
        simp only [Option.map_some', Option.some.injEq] at hq
        rw [← hq]
        exact classifyContainmentPoint_inside_or_outside _ _ _ _
    rw [← hr]
    exact ⟨hlab, rfl⟩

/-- Witness for C10 at concrete inputs: the non-empty unit-ball state
queried with an empty sensor frame id at the origin point. -/
theorem claim_c10_witness :
    stateBall.bodies ≠ [] ∧
    (maskIntersectionFrame mergeBall lookupFail none "" 0 true stateBall
      [Vec3.zero])[0]? = some (MaskLabel.INSIDE, []) ∧
    (((MaskLabel.INSIDE, ([] : List Vec3)).1 = MaskLabel.INSIDE ∨
      (MaskLabel.INSIDE, ([] : List Vec3)).1 = MaskLabel.OUTSIDE) ∧
      (MaskLabel.INSIDE, ([] : List Vec3)).2 = ([] : List Vec3)) := by
  have hne : stateBall.bodies ≠ [] := by simp [stateBall]
  have hr : (maskIntersectionFrame mergeBall lookupFail none "" 0 true
      stateBall [Vec3.zero])[0]? = some (MaskLabel.INSIDE, []) := by
    norm_num [maskIntersectionFrame, assumeFrameSensor, assumeFrame,
      computeBoundingSpheres, maskAuxContainment, classifyContainmentPoint,
      stateBall, ballLink, geomBall, mergeBall, lookupFail,
      Vec3.sub, Vec3.normSq, Vec3.dot, Vec3.zero]
  exact ⟨hne, hr,
    claim_c10_containment_only mergeBall lookupFail none 0 true stateBall
      [Vec3.zero] 0 (MaskLabel.INSIDE, []) hne hr⟩

end RobotSelfFilter
